import Mathlib

/-!
Shallow embedding of the license management backend
(`backend/app.py`, `backend/models.py`).

Timestamps are modelled as integer seconds; `datetime.utcnow()` is modelled
as a single per-request instant `now` passed to each operation.  JWT encoding
and decoding are modelled symbolically by `TokenWire`: a well-formed signed
token carries its payload and the secret it was signed with, and verification
compares secrets and checks the `exp` claim the way PyJWT does (a token is
expired when `exp <= now`).  SQLAlchemy tables are lists of rows inside a
`Store`; `query.filter_by(...).first()` is `List.find?`, `query.get(pk)` is
`List.find?` on the primary key, inserts append to the list, and attribute
assignment followed by `commit` is a `List.map` that rewrites the matching
row.
-/

/-- 24 hours in seconds: `JWT_ACCESS_TOKEN_EXPIRES = timedelta(hours=24)`. -/
def jwtAccessTokenExpires : Int := 86400

/-- One day in seconds, used for `timedelta(days=...)` arithmetic. -/
def secondsPerDay : Int := 86400

/-- Row of the `licenses` table (`models.py`, class `License`). -/
structure License where
  id : Nat
  key : String
  status : String
  expires_at : Option Int
  created_at : Int
  revoked_at : Option Int
  created_by : Option Nat
  revoked_by : Option Nat
deriving Repr, DecidableEq

/-- Row of the `devices` table (`models.py`, class `Device`). -/
structure Device where
  id : Nat
  device_id : String
  device_info : String
  fcm_token : Option String
  registered_at : Int
  last_validated : Option Int
  is_active : Bool
  license_id : Nat
deriving Repr, DecidableEq

/-- Row of the `audit_logs` table (`models.py`, class `AuditLog`).
The `device_id` column is declared in the schema as an integer foreign key
to `devices.id`, but the application code stores the caller-supplied device
identifier string in it (SQLite does not enforce column affinity), so the
stored value is modelled as an optional `String`. -/
structure AuditLog where
  id : Nat
  action : String
  details : String
  ip_address : Option String
  user_agent : Option String
  created_at : Int
  license_id : Option Nat
  device_id : Option String
  admin_user_id : Option Nat
deriving Repr, DecidableEq

/-- The relational store: the three tables the API touches, plus the
autoincrement counters for their integer primary keys. -/
structure Store where
  licenses : List License
  devices : List Device
  audit_logs : List AuditLog
  next_license_id : Nat
  next_device_id : Nat
  next_audit_id : Nat
deriving Repr, DecidableEq

/-- A presented or issued JWT, modelled symbolically: a signed token carries
its claims (`user_id`, `license_id`, `exp`) and the secret used to sign it;
anything that is not a well-formed signed token is `malformed`. -/
inductive TokenWire where
  | signed (user_id : String) (license_id : Nat) (exp : Int) (key : String)
  | malformed (raw : String)
deriving Repr, DecidableEq

/-- `jwt.encode({'user_id': ..., 'license_id': ..., 'exp': ...}, key)`. -/
def jwt_encode (user_id : String) (license_id : Nat) (exp : Int)
    (key : String) : TokenWire :=
  .signed user_id license_id exp key

/-- Outcome of the `jwt_required` decorator (`app.py` lines 47-65). -/
inductive AuthResult where
  | missing
  | expiredToken
  | invalidToken
  | ok (user_id : String)
deriving Repr, DecidableEq

/-- `jwt.decode(token, key, algorithms=['HS256'])` followed by reading
`data['user_id']`: a wrong signature raises `InvalidTokenError`; PyJWT
raises `ExpiredSignatureError` when `exp <= now`. -/
def jwt_decode (t : TokenWire) (key : String) (now : Int) : AuthResult :=
  match t with
  | .malformed _ => .invalidToken
  | .signed u _ e k =>
      if k ≠ key then .invalidToken
      else if e ≤ now then .expiredToken
      else .ok u

/-- The `jwt_required` decorator: a missing `Authorization` header yields
401 "Token is missing"; otherwise the (Bearer-stripped) token is decoded. -/
def jwt_required_check (auth_header : Option TokenWire) (key : String)
    (now : Int) : AuthResult :=
  match auth_header with
  | none => .missing
  | some t => jwt_decode t key now

/-- `license_obj.expires_at and license_obj.expires_at < datetime.utcnow()`. -/
def expiredNow (l : License) (now : Int) : Bool :=
  match l.expires_at with
  | some e => decide (e < now)
  | none => false

/-- `license_obj.status = 'expired'; db.session.commit()`: rewrite the
matching row's status. -/
def expireLicense (ls : List License) (lid : Nat) : List License :=
  ls.map (fun l => if l.id = lid then { l with status := "expired" } else l)

/-- Responses of `POST /activate` (`app.py` lines 69-155). -/
inductive ActivateResult where
  | invalidKey
  | notActive
  | expired
  | conflict
  | success (token : TokenWire) (license_status : String)
      (expires_at : Option Int)
deriving Repr, DecidableEq

/-- `activate_license` (`app.py` lines 69-155), after JSON field extraction:
look up the license by key, check status and lazy expiry, then either
re-issue a token for a device already bound to this license, reject a device
bound to a different license, or insert a new `Device` row plus one
`AuditLog` row and issue a token. -/
def activate_license (st : Store) (jwt_secret : String) (now : Int)
    (license_key device_id device_info : String) : ActivateResult × Store :=
  match st.licenses.find? (fun l => l.key == license_key) with
  | none => (.invalidKey, st)
  | some license_obj =>
    if license_obj.status ≠ "active" then (.notActive, st)
    else if expiredNow license_obj now then
      (.expired, { st with licenses := expireLicense st.licenses license_obj.id })
    else
      match st.devices.find? (fun d => d.device_id == device_id) with
      | some existing_device =>
        if existing_device.license_id = license_obj.id then
          (.success
            (jwt_encode device_id license_obj.id (now + jwtAccessTokenExpires)
              jwt_secret)
            license_obj.status license_obj.expires_at, st)
        else (.conflict, st)
      | none =>
        let device : Device :=
          { id := st.next_device_id, device_id := device_id,
            device_info := device_info, fcm_token := none,
            registered_at := now, last_validated := none,
            is_active := true, license_id := license_obj.id }
        let audit : AuditLog :=
          { id := st.next_audit_id, action := "license_activated",
            details := "Device " ++ device_id ++ " activated license "
              ++ license_key,
            ip_address := none, user_agent := none, created_at := now,
            license_id := some license_obj.id, device_id := some device_id,
            admin_user_id := none }
        (.success
          (jwt_encode device_id license_obj.id (now + jwtAccessTokenExpires)
            jwt_secret)
          license_obj.status license_obj.expires_at,
         { st with devices := st.devices ++ [device],
                   audit_logs := st.audit_logs ++ [audit],
                   next_device_id := st.next_device_id + 1,
                   next_audit_id := st.next_audit_id + 1 })

/-- Responses of `POST /validate` (`app.py` lines 157-197), including the
401 outcomes produced by the `jwt_required` wrapper. -/
inductive ValidateResult where
  | authMissing
  | authExpired
  | authInvalid
  | deviceNotFound
  | licenseNotFound
  | notActive (status : String)
  | expired
  | valid (license_status : String) (expires_at : Option Int)
      (days_remaining : Option Int)
deriving Repr, DecidableEq

/-- `device.last_validated = datetime.utcnow(); db.session.commit()`. -/
def touchDevice (ds : List Device) (did : Nat) (now : Int) : List Device :=
  ds.map (fun d => if d.id = did then { d with last_validated := some now }
                   else d)

/-- `(license_obj.expires_at - datetime.utcnow()).days`: Python's
`timedelta.days` is the floor of the difference in whole days. -/
def daysBetween (later now : Int) : Int :=
  Int.fdiv (later - now) secondsPerDay

/-- `validate_license` (`app.py` lines 157-197): decode the bearer token,
look up the device by the `user_id` claim, its license by primary key, check
status and lazy expiry, then record `last_validated` and report the license
status, expiry and remaining whole days. -/
def validate_license (st : Store) (jwt_secret : String) (now : Int)
    (auth_header : Option TokenWire) : ValidateResult × Store :=
  match jwt_required_check auth_header jwt_secret now with
  | .missing => (.authMissing, st)
  | .expiredToken => (.authExpired, st)
  | .invalidToken => (.authInvalid, st)
  | .ok user_id =>
    match st.devices.find? (fun d => d.device_id == user_id) with
    | none => (.deviceNotFound, st)
    | some device =>
      match st.licenses.find? (fun l => l.id == device.license_id) with
      | none => (.licenseNotFound, st)
      | some license_obj =>
        if license_obj.status ≠ "active" then
          (.notActive license_obj.status, st)
        else if expiredNow license_obj now then
          (.expired,
           { st with licenses := expireLicense st.licenses license_obj.id })
        else
          (.valid license_obj.status license_obj.expires_at
            (license_obj.expires_at.map (fun e => daysBetween e now)),
           { st with devices := touchDevice st.devices device.id now })

/-- Outcomes of `POST /admin/licenses/create` (`app.py` lines 244-278). -/
inductive CreateResult where
  | keyRequired
  | duplicateKey
  | created (l : License)
deriving Repr, DecidableEq

/-- `create_license` (`app.py` lines 244-278): an empty key is rejected, a
key that already exists is rejected, otherwise a new `License` row is
inserted with status `active` and `expires_at = now + timedelta(days=
duration_days)`; no bound is placed on `duration_days`. -/
def create_license (st : Store) (now : Int) (key : String)
    (duration_days : Int) (current_user_id : Nat) : CreateResult × Store :=
  if key = "" then (.keyRequired, st)
  else if (st.licenses.find? (fun l => l.key == key)).isSome then
    (.duplicateKey, st)
  else
    let license_obj : License :=
      { id := st.next_license_id, key := key, status := "active",
        expires_at := some (now + duration_days * secondsPerDay),
        created_at := now, revoked_at := none,
        created_by := some current_user_id, revoked_by := none }
    (.created license_obj,
     { st with licenses := st.licenses ++ [license_obj],
               next_license_id := st.next_license_id + 1 })

/-- Outcomes of `POST /admin/licenses/<id>/revoke` (`app.py` lines 280-306). -/
inductive RevokeResult where
  | notFound
  | revoked
deriving Repr, DecidableEq

/-- The unconditional row rewrite performed by `revoke_license`:
`license_obj.status = 'revoked'; license_obj.revoked_at = ...;
license_obj.revoked_by = ...; db.session.commit()`. -/
def revokeUpdate (ls : List License) (lid : Nat) (now : Int)
    (uid : Nat) : List License :=
  ls.map (fun l => if l.id = lid then
    { l with status := "revoked", revoked_at := some now,
             revoked_by := some uid }
    else l)

/-- `revoke_license` (`app.py` lines 280-306): `get_or_404` on the primary
key, then unconditionally set status to `revoked`, stamp `revoked_at` and
`revoked_by`, and append a `license_revoked` audit row. -/
def revoke_license (st : Store) (now : Int) (license_id : Nat)
    (current_user_id : Nat) : RevokeResult × Store :=
  match st.licenses.find? (fun l => l.id == license_id) with
  | none => (.notFound, st)
  | some license_obj =>
    let audit : AuditLog :=
      { id := st.next_audit_id, action := "license_revoked",
        details := "License " ++ license_obj.key ++ " revoked by admin",
        ip_address := none, user_agent := none, created_at := now,
        license_id := some license_id, device_id := none,
        admin_user_id := none }
    (.revoked,
     { st with licenses := revokeUpdate st.licenses license_id now
                 current_user_id,
               audit_logs := st.audit_logs ++ [audit],
               next_audit_id := st.next_audit_id + 1 })

/-- One API call, as a relation between stores: any of the four
state-touching operations with arbitrary arguments. -/
inductive Step : Store → Store → Prop where
  | act (st : Store) (jk : String) (now : Int) (k d i : String) :
      Step st (activate_license st jk now k d i).2
  | val (st : Store) (jk : String) (now : Int) (hdr : Option TokenWire) :
      Step st (validate_license st jk now hdr).2
  | cre (st : Store) (now : Int) (k : String) (dur : Int) (uid : Nat) :
      Step st (create_license st now k dur uid).2
  | rev (st : Store) (now : Int) (lid uid : Nat) :
      Step st (revoke_license st now lid uid).2

/-- Any finite sequence of API calls. -/
inductive Steps : Store → Store → Prop where
  | refl (st : Store) : Steps st st
  | tail {st₁ st₂ st₃ : Store} : Steps st₁ st₂ → Step st₂ st₃ →
      Steps st₁ st₃

/-! ### Generic list-query lemmas -/

/-- `find?` commutes with a row rewrite that does not change the searched
column. -/
theorem find?_map_pres {α : Type} (f : α → α) (p : α → Bool)
    (h : ∀ a, p (f a) = p a) (l : List α) :
    (l.map f).find? p = (l.find? p).map f := by
  rw [List.find?_map]
  have hpf : (p ∘ f) = p := funext h
  rw [hpf]

/-- A row found before an insert is still the row found after it. -/
theorem find?_append_some {α : Type} {p : α → Bool} {l₁ : List α}
    (l₂ : List α) {a : α} (h : l₁.find? p = some a) :
    (l₁ ++ l₂).find? p = some a := by
  rw [List.find?_append, h, Option.or_some]

/-- If no row matched before an insert, lookup after the insert searches the
inserted rows. -/
theorem find?_append_none {α : Type} {p : α → Bool} {l₁ : List α}
    (l₂ : List α) (h : l₁.find? p = none) :
    (l₁ ++ l₂).find? p = l₂.find? p := by
  rw [List.find?_append, h, Option.none_or]

/-! ### Column-preservation facts for the three row rewrites -/

theorem expireLicense_find?_key (ls : List License) (lid : Nat) (k : String) :
    (expireLicense ls lid).find? (fun l => l.key == k) =
      (ls.find? (fun l => l.key == k)).map
        (fun l => if l.id = lid then { l with status := "expired" } else l) := by
  apply find?_map_pres
  intro a
  by_cases h : a.id = lid <;> simp [h]

theorem expireLicense_find?_id (ls : List License) (lid lid2 : Nat) :
    (expireLicense ls lid).find? (fun l => l.id == lid2) =
      (ls.find? (fun l => l.id == lid2)).map
        (fun l => if l.id = lid then { l with status := "expired" } else l) := by
  apply find?_map_pres
  intro a
  by_cases h : a.id = lid <;> simp [h]

theorem revokeUpdate_find?_key (ls : List License) (lid : Nat) (now : Int)
    (uid : Nat) (k : String) :
    (revokeUpdate ls lid now uid).find? (fun l => l.key == k) =
      (ls.find? (fun l => l.key == k)).map
        (fun l => if l.id = lid then
          { l with status := "revoked", revoked_at := some now,
                   revoked_by := some uid }
          else l) := by
  apply find?_map_pres
  intro a
  by_cases h : a.id = lid <;> simp [h]

theorem revokeUpdate_find?_id (ls : List License) (lid : Nat) (now : Int)
    (uid : Nat) (lid2 : Nat) :
    (revokeUpdate ls lid now uid).find? (fun l => l.id == lid2) =
      (ls.find? (fun l => l.id == lid2)).map
        (fun l => if l.id = lid then
          { l with status := "revoked", revoked_at := some now,
                   revoked_by := some uid }
          else l) := by
  apply find?_map_pres
  intro a
  by_cases h : a.id = lid <;> simp [h]

theorem touchDevice_find?_device_id (ds : List Device) (did : Nat)
    (now : Int) (u : String) :
    (touchDevice ds did now).find? (fun d => d.device_id == u) =
      (ds.find? (fun d => d.device_id == u)).map
        (fun d => if d.id = did then { d with last_validated := some now }
                  else d) := by
  apply find?_map_pres
  intro a
  by_cases h : a.id = did <;> simp [h]

/-! ### Shape of each operation's effect on each table -/

/-- `activate_license` either leaves the licenses table alone or persists the
lazy-expiry transition of the (active) license it found by key. -/
theorem activate_licenses_cases (st : Store) (jk : String) (now : Int)
    (k d i : String) :
    (activate_license st jk now k d i).2.licenses = st.licenses ∨
    ∃ l, st.licenses.find? (fun x => x.key == k) = some l ∧
      l.status = "active" ∧
      (activate_license st jk now k d i).2.licenses =
        expireLicense st.licenses l.id := by
  unfold activate_license
  split
  · left; rfl
  next l heq =>
    split
    next => left; rfl
    next hs =>
      split
      next hex =>
        right
        exact ⟨l, heq, not_ne_iff.mp hs, rfl⟩
      next hex =>
        split
        next dv hd =>
          split
          · left; rfl
          · left; rfl
        next => left; rfl

/-- `validate_license` either leaves the licenses table alone or persists the
lazy-expiry transition of the (active) license it found by primary key. -/
theorem validate_licenses_cases (st : Store) (jk : String) (now : Int)
    (hdr : Option TokenWire) :
    (validate_license st jk now hdr).2.licenses = st.licenses ∨
    ∃ l lid, st.licenses.find? (fun x => x.id == lid) = some l ∧
      l.status = "active" ∧
      (validate_license st jk now hdr).2.licenses =
        expireLicense st.licenses l.id := by
  unfold validate_license
  split
  · left; rfl
  · left; rfl
  · left; rfl
  next u ha =>
    split
    · left; rfl
    next dv hd =>
      split
      · left; rfl
      next l hl =>
        split
        next => left; rfl
        next hs =>
          split
          next hex =>
            right
            exact ⟨l, dv.license_id, hl, not_ne_iff.mp hs, rfl⟩
          next hex => left; rfl

/-- `create_license` either leaves the licenses table alone or appends one
fresh row whose id is the autoincrement counter. -/
theorem create_licenses_cases (st : Store) (now : Int) (k : String)
    (dur : Int) (uid : Nat) :
    (create_license st now k dur uid).2.licenses = st.licenses ∨
    ∃ l, l.id = st.next_license_id ∧
      (create_license st now k dur uid).2.licenses = st.licenses ++ [l] := by
  unfold create_license
  split
  · left; rfl
  · split
    · left; rfl
    · right; exact ⟨_, rfl, rfl⟩

/-- `revoke_license` either leaves the licenses table alone (unknown id) or
performs the unconditional revocation rewrite. -/
theorem revoke_licenses_cases (st : Store) (now : Int) (lid uid : Nat) :
    (revoke_license st now lid uid).2.licenses = st.licenses ∨
    (revoke_license st now lid uid).2.licenses =
      revokeUpdate st.licenses lid now uid := by
  unfold revoke_license
  split
  · left; rfl
  · right; rfl

/-- The devices table is either untouched by `activate_license` or extended
by exactly one new row. -/
theorem activate_devices_cases (st : Store) (jk : String) (now : Int)
    (k d i : String) :
    (activate_license st jk now k d i).2.devices = st.devices ∨
    ∃ dev, (activate_license st jk now k d i).2.devices =
      st.devices ++ [dev] := by
  unfold activate_license
  split
  · left; rfl
  next l heq =>
    split
    next => left; rfl
    next hs =>
      split
      next hex => left; rfl
      next hex =>
        split
        next dv hd =>
          split
          · left; rfl
          · left; rfl
        next => right; exact ⟨_, rfl⟩

/-- The devices table is either untouched by `validate_license` or rewritten
only in the `last_validated` column of one row. -/
theorem validate_devices_cases (st : Store) (jk : String) (now : Int)
    (hdr : Option TokenWire) :
    (validate_license st jk now hdr).2.devices = st.devices ∨
    ∃ did now2, (validate_license st jk now hdr).2.devices =
      touchDevice st.devices did now2 := by
  unfold validate_license
  split
  · left; rfl
  · left; rfl
  · left; rfl
  next u ha =>
    split
    · left; rfl
    next dv hd =>
      split
      · left; rfl
      next l hl =>
        split
        next => left; rfl
        next hs =>
          split
          next hex => left; rfl
          next hex => right; exact ⟨dv.id, now, rfl⟩

theorem create_devices_eq (st : Store) (now : Int) (k : String)
    (dur : Int) (uid : Nat) :
    (create_license st now k dur uid).2.devices = st.devices := by
  unfold create_license
  split
  · rfl
  · split <;> rfl

theorem revoke_devices_eq (st : Store) (now : Int) (lid uid : Nat) :
    (revoke_license st now lid uid).2.devices = st.devices := by
  unfold revoke_license
  split <;> rfl

/-! ### License-table well-formedness and status transitions -/

/-- A status change an API call is allowed to make to one license row:
unchanged, revoked (from any prior status — `revoke_license` is
unconditional), or the lazy active→expired transition. -/
def statusStep (s s' : String) : Prop :=
  s' = s ∨ s' = "revoked" ∨ (s = "active" ∧ s' = "expired")

/-- Primary-key well-formedness of the licenses table: row ids are distinct
and below the autoincrement counter. -/
def Store.LicenseWF (st : Store) : Prop :=
  (st.licenses.map (fun l => l.id)).Nodup ∧
  ∀ l ∈ st.licenses, l.id < st.next_license_id

theorem expireLicense_map_id (ls : List License) (lid : Nat) :
    (expireLicense ls lid).map (fun l => l.id) = ls.map (fun l => l.id) := by
  unfold expireLicense
  rw [List.map_map]
  apply List.map_congr_left
  intro a ha
  by_cases h : a.id = lid <;> simp [h]

theorem revokeUpdate_map_id (ls : List License) (lid : Nat) (now : Int)
    (uid : Nat) :
    (revokeUpdate ls lid now uid).map (fun l => l.id) =
      ls.map (fun l => l.id) := by
  unfold revokeUpdate
  rw [List.map_map]
  apply List.map_congr_left
  intro a ha
  by_cases h : a.id = lid <;> simp [h]

theorem activate_next_license_id (st : Store) (jk : String) (now : Int)
    (k d i : String) :
    (activate_license st jk now k d i).2.next_license_id =
      st.next_license_id := by
  unfold activate_license
  split
  · rfl
  next l heq =>
    split
    next => rfl
    next =>
      split
      next => rfl
      next =>
        split
        next dv hd => split <;> rfl
        next => rfl

theorem validate_next_license_id (st : Store) (jk : String) (now : Int)
    (hdr : Option TokenWire) :
    (validate_license st jk now hdr).2.next_license_id =
      st.next_license_id := by
  unfold validate_license
  split
  · rfl
  · rfl
  · rfl
  next u ha =>
    split
    · rfl
    next dv hd =>
      split
      · rfl
      next l hl =>
        split
        next => rfl
        next =>
          split
          next => rfl
          next => rfl

theorem revoke_next_license_id (st : Store) (now : Int) (lid uid : Nat) :
    (revoke_license st now lid uid).2.next_license_id =
      st.next_license_id := by
  unfold revoke_license
  split <;> rfl

/-- The strengthened shape lemma for `create_license`: it fails and leaves
the store untouched, or appends one license with the counter id and bumps
the counter. -/
theorem create_store_cases (st : Store) (now : Int) (k : String)
    (dur : Int) (uid : Nat) :
    (create_license st now k dur uid).2 = st ∨
    ∃ l, l.id = st.next_license_id ∧
      (create_license st now k dur uid).2 =
        { st with licenses := st.licenses ++ [l],
                  next_license_id := st.next_license_id + 1 } := by
  unfold create_license
  split
  · left; rfl
  · split
    · left; rfl
    · right; exact ⟨_, rfl, rfl⟩

/-- Primary-key well-formedness of the licenses table is preserved by every
API call. -/
theorem licenseWF_step {st st' : Store} (h : Step st st')
    (hwf : Store.LicenseWF st) : Store.LicenseWF st' := by
  obtain ⟨hnd, hlt⟩ := hwf
  cases h with
  | act jk now k d info =>
    rcases activate_licenses_cases st jk now k d info with hL | ⟨l, hf, hs, hL⟩
    · exact ⟨by rw [hL]; exact hnd,
        by rw [hL, activate_next_license_id]; exact hlt⟩
    · constructor
      · rw [hL, expireLicense_map_id]; exact hnd
      · rw [hL, activate_next_license_id]
        intro l2 hl2
        unfold expireLicense at hl2
        rcases List.mem_map.mp hl2 with ⟨a, haa, rfl⟩
        have ha2 := hlt a haa
        by_cases hid : a.id = l.id <;> simp [hid] <;> omega
  | val jk now hdr =>
    rcases validate_licenses_cases st jk now hdr with hL | ⟨l, lid, hf, hs, hL⟩
    · exact ⟨by rw [hL]; exact hnd,
        by rw [hL, validate_next_license_id]; exact hlt⟩
    · constructor
      · rw [hL, expireLicense_map_id]; exact hnd
      · rw [hL, validate_next_license_id]
        intro l2 hl2
        unfold expireLicense at hl2
        rcases List.mem_map.mp hl2 with ⟨a, haa, rfl⟩
        have ha2 := hlt a haa
        by_cases hid : a.id = l.id <;> simp [hid] <;> omega
  | cre now k dur uid =>
    rcases create_store_cases st now k dur uid with hE | ⟨l, hid, hE⟩
    · rw [hE]; exact ⟨hnd, hlt⟩
    · rw [hE]
      constructor
      · simp only [List.map_append, List.map_cons, List.map_nil]
        rw [List.nodup_append]
        refine ⟨hnd, List.nodup_singleton _, ?_⟩
        intro x hx hx1
        simp only [List.mem_singleton] at hx1
        rcases List.mem_map.mp hx with ⟨a, haa, rfl⟩
        have ha2 := hlt a haa
        omega
      · intro l2 hl2
        rcases List.mem_append.mp hl2 with h2 | h2
        · exact Nat.lt_succ_of_lt (hlt l2 h2)
        · simp only [List.mem_singleton] at h2
          subst h2
          rw [hid]
          exact Nat.lt_succ_self _
  | rev now lid uid =>
    rcases revoke_licenses_cases st now lid uid with hL | hL
    · exact ⟨by rw [hL]; exact hnd,
        by rw [hL, revoke_next_license_id]; exact hlt⟩
    · constructor
      · rw [hL, revokeUpdate_map_id]; exact hnd
      · rw [hL, revoke_next_license_id]
        intro l2 hl2
        unfold revokeUpdate at hl2
        rcases List.mem_map.mp hl2 with ⟨a, haa, rfl⟩
        have ha2 := hlt a haa
        by_cases hid : a.id = lid <;> simp [hid] <;> omega

theorem licenseWF_steps {st st' : Store} (h : Steps st st')
    (hwf : Store.LicenseWF st) : Store.LicenseWF st' := by
  induction h with
  | refl => exact hwf
  | tail hs hstep ih => exact licenseWF_step hstep ih

/-- Sample base rows used for concrete evaluations. -/
def mkLicense (lid : Nat) (k s : String) (exp0 : Option Int) : License :=
  { id := lid, key := k, status := s, expires_at := exp0, created_at := 0,
    revoked_at := none, created_by := some 1, revoked_by := none }

/-- A store holding a single license whose `expires_at` already passed and
whose status was already corrected to `expired` by a lazy-expiry check. -/
def expiredStore : Store :=
  { licenses := [mkLicense 1 "KEY-X" "expired" (some 100)],
    devices := [], audit_logs := [],
    next_license_id := 2, next_device_id := 1, next_audit_id := 1 }

/-- C2, counterexample: the claim says that once a license's status is
`expired`, no operation ever changes its status again; but `revoke_license`
rewrites the status unconditionally, so revoking the expired license of
`expiredStore` changes its status from `expired` to `revoked`. -/
theorem revoke_changes_expired_status :
    Step expiredStore (revoke_license expiredStore 200 1 9).2 ∧
    expiredStore.licenses.map License.status = ["expired"] ∧
    (revoke_license expiredStore 200 1 9).2.licenses.map License.status =
      ["revoked"] :=
  ⟨Step.rev expiredStore 200 1 9, rfl, rfl⟩

/-- C2, amended: for a store with well-formed license primary keys, the only
per-row status changes a single API call can make are active→expired (lazy
expiry) and X→revoked for `revoke_license`, which revokes from any prior
status; in particular no row ever returns to `active` and a `revoked` row
never changes status again. -/
theorem license_status_transitions (st st' : Store)
    (hwf : Store.LicenseWF st) (hstep : Step st st') (i : Nat)
    (a b : License) (ha : st.licenses[i]? = some a)
    (hb : st'.licenses[i]? = some b) : statusStep a.status b.status := by
  have hmema : a ∈ st.licenses := List.getElem?_mem ha
  cases hstep with
  | act jk now k d info =>
    rcases activate_licenses_cases st jk now k d info with hL | ⟨l, hf, hs, hL⟩
    · rw [hL, ha] at hb
      cases hb
      exact Or.inl rfl
    · rw [hL] at hb
      unfold expireLicense at hb
      rw [List.getElem?_map, ha] at hb
      simp only [Option.map_some'] at hb
      by_cases hid : a.id = l.id
      · have hmem : l ∈ st.licenses := List.mem_of_find?_eq_some hf
        have : a = l := List.inj_on_of_nodup_map hwf.1 hmema hmem hid
        subst this
        rw [if_pos hid] at hb
        cases hb
        exact Or.inr (Or.inr ⟨hs, rfl⟩)
      · rw [if_neg hid] at hb
        cases hb
        exact Or.inl rfl
  | val jk now hdr =>
    rcases validate_licenses_cases st jk now hdr with hL | ⟨l, lid, hf, hs, hL⟩
    · rw [hL, ha] at hb
      cases hb
      exact Or.inl rfl
    · rw [hL] at hb
      unfold expireLicense at hb
      rw [List.getElem?_map, ha] at hb
      simp only [Option.map_some'] at hb
      by_cases hid : a.id = l.id
      · have hmem : l ∈ st.licenses := List.mem_of_find?_eq_some hf
        have : a = l := List.inj_on_of_nodup_map hwf.1 hmema hmem hid
        subst this
        rw [if_pos hid] at hb
        cases hb
        exact Or.inr (Or.inr ⟨hs, rfl⟩)
      · rw [if_neg hid] at hb
        cases hb
        exact Or.inl rfl
  | cre now k dur uid =>
    rcases create_store_cases st now k dur uid with hE | ⟨l, hid, hE⟩
    · rw [hE, ha] at hb
      cases hb
      exact Or.inl rfl
    · rw [hE] at hb
      simp only at hb
      have hi : i < st.licenses.length := (List.getElem?_eq_some.mp ha).1
      rw [List.getElem?_append, if_pos hi, ha] at hb
      cases hb
      exact Or.inl rfl
  | rev now lid uid =>
    rcases revoke_licenses_cases st now lid uid with hL | hL
    · rw [hL, ha] at hb
      cases hb
      exact Or.inl rfl
    · rw [hL] at hb
      unfold revokeUpdate at hb
      rw [List.getElem?_map, ha] at hb
      simp only [Option.map_some'] at hb
      by_cases hid : a.id = lid
      · rw [if_pos hid] at hb
        cases hb
        exact Or.inr (Or.inl rfl)
      · rw [if_neg hid] at hb
        cases hb
        exact Or.inl rfl

/-- The row of `expiredStore` after its license is revoked at time 200 by
admin 9. -/
def expiredThenRevokedRow : License :=
  { id := 1, key := "KEY-X", status := "revoked", expires_at := some 100,
    created_at := 0, revoked_at := some 200, created_by := some 1,
    revoked_by := some 9 }

/-- C2, witness: the amended transition property evaluated at a concrete
step (revoking the expired license of `expiredStore`). -/
theorem license_status_transitions_witness :
    statusStep (mkLicense 1 "KEY-X" "expired" (some 100)).status
      expiredThenRevokedRow.status :=
  license_status_transitions expiredStore
    (revoke_license expiredStore 200 1 9).2
    (by unfold Store.LicenseWF; decide)
    (Step.rev expiredStore 200 1 9) 0
    (mkLicense 1 "KEY-X" "expired" (some 100)) expiredThenRevokedRow
    (by decide) (by decide)

/-! ### C1: idempotent re-activation -/

/-- C1: activating the same (license_key, device_id) pair twice against a
valid active license succeeds both times with a valid 24-hour token, creates
exactly one `Device` row and exactly one `AuditLog` row in total, and the
second call changes nothing at all in the store. -/
theorem activate_idempotent (st : Store) (jk k d info1 info2 : String)
    (now1 now2 : Int) (l : License)
    (hf : st.licenses.find? (fun x => x.key == k) = some l)
    (hs : l.status = "active")
    (he1 : expiredNow l now1 = false) (he2 : expiredNow l now2 = false)
    (hd : st.devices.find? (fun x => x.device_id == d) = none) :
    (activate_license st jk now1 k d info1).1 =
      .success (jwt_encode d l.id (now1 + jwtAccessTokenExpires) jk)
        l.status l.expires_at ∧
    (activate_license (activate_license st jk now1 k d info1).2 jk now2 k d
        info2).1 =
      .success (jwt_encode d l.id (now2 + jwtAccessTokenExpires) jk)
        l.status l.expires_at ∧
    (activate_license (activate_license st jk now1 k d info1).2 jk now2 k d
        info2).2 = (activate_license st jk now1 k d info1).2 ∧
    (activate_license st jk now1 k d info1).2.devices.length =
      st.devices.length + 1 ∧
    (activate_license st jk now1 k d info1).2.audit_logs.length =
      st.audit_logs.length + 1 ∧
    jwt_required_check
      (some (jwt_encode d l.id (now1 + jwtAccessTokenExpires) jk)) jk now1 =
      .ok d ∧
    jwt_required_check
      (some (jwt_encode d l.id (now2 + jwtAccessTokenExpires) jk)) jk now2 =
      .ok d := by
  have h1 : activate_license st jk now1 k d info1 =
      (.success (jwt_encode d l.id (now1 + jwtAccessTokenExpires) jk)
        l.status l.expires_at,
       { st with
           devices := st.devices ++
             [{ id := st.next_device_id, device_id := d,
                device_info := info1, fcm_token := none,
                registered_at := now1, last_validated := none,
                is_active := true, license_id := l.id }],
           audit_logs := st.audit_logs ++
             [{ id := st.next_audit_id, action := "license_activated",
                details := "Device " ++ d ++ " activated license " ++ k,
                ip_address := none, user_agent := none, created_at := now1,
                license_id := some l.id, device_id := some d,
                admin_user_id := none }],
           next_device_id := st.next_device_id + 1,
           next_audit_id := st.next_audit_id + 1 }) := by
    unfold activate_license
    rw [hf]
    simp [hs, he1, hd]
  have h2 : activate_license (activate_license st jk now1 k d info1).2 jk
      now2 k d info2 =
      (.success (jwt_encode d l.id (now2 + jwtAccessTokenExpires) jk)
        l.status l.expires_at, (activate_license st jk now1 k d info1).2) := by
    rw [h1]
    unfold activate_license
    rw [hf]
    simp [hs, he2, find?_append_none _ hd]
  refine ⟨by rw [h1], by rw [h2], by rw [h2], by rw [h1]; simp,
    by rw [h1]; simp, ?_, ?_⟩
  · simp [jwt_required_check, jwt_decode, jwt_encode, jwtAccessTokenExpires]
  · simp [jwt_required_check, jwt_decode, jwt_encode, jwtAccessTokenExpires]

/-- A store with one active license (no expiry) and no devices, used to
instantiate the activation theorems. -/
def freshStore : Store :=
  { licenses := [mkLicense 1 "KEY-A" "active" none],
    devices := [], audit_logs := [],
    next_license_id := 2, next_device_id := 1, next_audit_id := 1 }

/-- C1, witness at a concrete store: both calls succeed, one device row and
one audit row exist afterwards, and the second call is a no-op. -/
theorem activate_idempotent_witness :
    (activate_license freshStore "s" 10 "KEY-A" "dev1" "x").1 =
      .success (jwt_encode "dev1" 1 (10 + jwtAccessTokenExpires) "s")
        "active" none ∧
    (activate_license
        (activate_license freshStore "s" 10 "KEY-A" "dev1" "x").2
        "s" 20 "KEY-A" "dev1" "y").1 =
      .success (jwt_encode "dev1" 1 (20 + jwtAccessTokenExpires) "s")
        "active" none ∧
    (activate_license
        (activate_license freshStore "s" 10 "KEY-A" "dev1" "x").2
        "s" 20 "KEY-A" "dev1" "y").2 =
      (activate_license freshStore "s" 10 "KEY-A" "dev1" "x").2 ∧
    (activate_license freshStore "s" 10 "KEY-A" "dev1" "x").2.devices.length =
      freshStore.devices.length + 1 ∧
    (activate_license freshStore "s" 10 "KEY-A" "dev1" "x").2.audit_logs.length =
      freshStore.audit_logs.length + 1 ∧
    jwt_required_check
      (some (jwt_encode "dev1" 1 (10 + jwtAccessTokenExpires) "s")) "s" 10 =
      .ok "dev1" ∧
    jwt_required_check
      (some (jwt_encode "dev1" 1 (20 + jwtAccessTokenExpires) "s")) "s" 20 =
      .ok "dev1" := by
  have h := activate_idempotent freshStore "s" "KEY-A" "dev1" "x" "y" 10 20
    (mkLicense 1 "KEY-A" "active" none)
    (by decide) (by decide) (by decide) (by decide) (by decide)
  exact h

/-! ### C4: device bound to a different license -/

/-- C4: activating a device that is already bound to a different license
against another valid active license fails with the conflict error and
leaves the store — in particular the existing `Device` row and its license
binding — completely unchanged, inserting no new row. -/
theorem activate_conflict (st : Store) (jk k d info : String) (now : Int)
    (l : License) (dv : Device)
    (hf : st.licenses.find? (fun x => x.key == k) = some l)
    (hs : l.status = "active")
    (he : expiredNow l now = false)
    (hd : st.devices.find? (fun x => x.device_id == d) = some dv)
    (hne : dv.license_id ≠ l.id) :
    activate_license st jk now k d info = (.conflict, st) := by
  unfold activate_license
  rw [hf]
  simp [hs, he, hd, hne]

/-- Device row bound to license 1, used in concrete stores. -/
def boundDevice : Device :=
  { id := 1, device_id := "dev1", device_info := "x", fcm_token := none,
    registered_at := 0, last_validated := none, is_active := true,
    license_id := 1 }

/-- Two active licenses; `dev1` is bound to the first. -/
def twoLicenseStore : Store :=
  { licenses := [mkLicense 1 "KEY-A" "active" none,
                 mkLicense 2 "KEY-B" "active" none],
    devices := [boundDevice], audit_logs := [],
    next_license_id := 3, next_device_id := 2, next_audit_id := 1 }

/-- C4, witness: activating `dev1` against `KEY-B` conflicts and leaves the
store unchanged. -/
theorem activate_conflict_witness :
    activate_license twoLicenseStore "s" 10 "KEY-B" "dev1" "y" =
      (.conflict, twoLicenseStore) :=
  activate_conflict twoLicenseStore "s" "KEY-B" "dev1" "y" 10
    (mkLicense 2 "KEY-B" "active" none) boundDevice
    (by decide) (by decide) (by decide) (by decide) (by decide)

/-! ### C5: token issuance and verification -/

/-- C5: a token issued for device `u` at time `T` carries expiry
`T + 24h`; it verifies (yielding `u`) at any time strictly before `T + 24h`
and is reported expired at any time strictly after; a missing header is
reported missing and a malformed or wrongly-signed token is reported
invalid; and every token issued by a successful `activate_license` call at
time `T` has exactly this shape. -/
theorem token_lifecycle (u raw key key2 : String) (lid : Nat) (T now : Int) :
    (now < T + jwtAccessTokenExpires →
      jwt_required_check
        (some (jwt_encode u lid (T + jwtAccessTokenExpires) key)) key now =
        .ok u) ∧
    (T + jwtAccessTokenExpires < now →
      jwt_required_check
        (some (jwt_encode u lid (T + jwtAccessTokenExpires) key)) key now =
        .expiredToken) ∧
    jwt_required_check none key now = .missing ∧
    jwt_required_check (some (.malformed raw)) key now = .invalidToken ∧
    (key2 ≠ key →
      jwt_required_check
        (some (jwt_encode u lid (T + jwtAccessTokenExpires) key2)) key now =
        .invalidToken) ∧
    (∀ st jk k2 info tok s e0,
      (activate_license st jk T k2 u info).1 = .success tok s e0 →
      ∃ lid2, tok = jwt_encode u lid2 (T + jwtAccessTokenExpires) jk) := by
  refine ⟨?_, ?_, rfl, rfl, ?_, ?_⟩
  · intro h
    simp only [jwt_required_check, jwt_encode, jwt_decode, ne_eq,
      not_true_eq_false, if_false]
    rw [if_neg (by omega)]
  · intro h
    simp only [jwt_required_check, jwt_encode, jwt_decode, ne_eq,
      not_true_eq_false, if_false]
    rw [if_pos (le_of_lt h)]
  · intro h
    simp [jwt_required_check, jwt_encode, jwt_decode, h]
  · intro st jk k2 info tok s e0 h
    unfold activate_license at h
    split at h
    · exact absurd h (by simp)
    · split at h
      · exact absurd h (by simp)
      · split at h
        · exact absurd h (by simp)
        · split at h
          · split at h
            · simp only [ActivateResult.success.injEq] at h
              exact ⟨_, h.1.symm⟩
            · exact absurd h (by simp)
          · simp only [ActivateResult.success.injEq] at h
            exact ⟨_, h.1.symm⟩

/-- C5, witness: the verification outcomes at concrete instants around the
24-hour boundary of a token issued at time 0. -/
theorem token_lifecycle_witness :
    jwt_required_check
      (some (jwt_encode "dev" 7 (0 + jwtAccessTokenExpires) "s")) "s" 86399 =
      .ok "dev" ∧
    jwt_required_check
      (some (jwt_encode "dev" 7 (0 + jwtAccessTokenExpires) "s")) "s" 86401 =
      .expiredToken ∧
    jwt_required_check
      (some (jwt_encode "dev" 7 (0 + jwtAccessTokenExpires) "bad")) "s" 10 =
      .invalidToken := by
  exact ⟨(token_lifecycle "dev" "r" "s" "bad" 7 0 86399).1 (by decide),
    (token_lifecycle "dev" "r" "s" "bad" 7 0 86401).2.1 (by decide),
    (token_lifecycle "dev" "r" "s" "bad" 7 0 10).2.2.2.2.1 (by decide)⟩

/-! ### C6: revoking an already-revoked license -/

/-- A store holding a single license that was already revoked at time 10 by
admin 7. -/
def revokedRowOld : License :=
  { id := 1, key := "KEY-R", status := "revoked", expires_at := none,
    created_at := 0, revoked_at := some 10, created_by := some 1,
    revoked_by := some 7 }

def revokedStore : Store :=
  { licenses := [revokedRowOld], devices := [], audit_logs := [],
    next_license_id := 2, next_device_id := 1, next_audit_id := 1 }

/-- C6, counterexample: the claim says revoking an already-revoked license
leaves its revocation timestamp and revoker unchanged and emits no new
audit entry; but revoking the license of `revokedStore` (revoked at 10 by
admin 7) again at time 20 by admin 9 overwrites `revoked_at` to 20 and
`revoked_by` to 9 and appends a new audit row. -/
theorem revoke_revoked_not_noop :
    (revoke_license revokedStore 20 1 9).1 = .revoked ∧
    (revoke_license revokedStore 20 1 9).2.licenses.map License.revoked_at =
      [some 20] ∧
    (revoke_license revokedStore 20 1 9).2.licenses.map License.revoked_by =
      [some 9] ∧
    (revoke_license revokedStore 20 1 9).2.audit_logs.length =
      revokedStore.audit_logs.length + 1 := by
  refine ⟨?_, ?_, ?_, ?_⟩ <;> decide

/-- C6, amended: revoking an already-revoked license reports success and
keeps the status `revoked`, but it is not a no-op: the revocation timestamp
and revoker reference are overwritten with the new call's values and a new
`license_revoked` audit entry is appended. -/
theorem revoke_already_revoked (st : Store) (now : Int) (lid uid : Nat)
    (l : License)
    (hf : st.licenses.find? (fun x => x.id == lid) = some l)
    (_hs : l.status = "revoked") :
    (revoke_license st now lid uid).1 = .revoked ∧
    (revoke_license st now lid uid).2.licenses.find?
        (fun x => x.id == lid) =
      some { l with status := "revoked", revoked_at := some now,
                    revoked_by := some uid } ∧
    (revoke_license st now lid uid).2.audit_logs =
      st.audit_logs ++
        [{ id := st.next_audit_id, action := "license_revoked",
           details := "License " ++ l.key ++ " revoked by admin",
           ip_address := none, user_agent := none, created_at := now,
           license_id := some lid, device_id := none,
           admin_user_id := none }] := by
  have hid : l.id = lid := by
    have h2 := List.find?_some hf
    simp only [beq_iff_eq] at h2
    exact h2
  refine ⟨?_, ?_, ?_⟩
  · unfold revoke_license
    rw [hf]
  · unfold revoke_license
    rw [hf]
    simp only
    rw [revokeUpdate_find?_id, hf]
    simp [hid]
  · unfold revoke_license
    rw [hf]

/-- C6, witness: the amended description evaluated on `revokedStore`. -/
theorem revoke_already_revoked_witness :
    (revoke_license revokedStore 20 1 9).1 = .revoked ∧
    (revoke_license revokedStore 20 1 9).2.licenses.find?
        (fun x => x.id == 1) =
      some { id := 1, key := "KEY-R", status := "revoked",
             expires_at := none, created_at := 0, revoked_at := some 20,
             created_by := some 1, revoked_by := some 9 } ∧
    (revoke_license revokedStore 20 1 9).2.audit_logs =
      revokedStore.audit_logs ++
        [{ id := 1, action := "license_revoked",
           details := "License " ++ "KEY-R" ++ " revoked by admin",
           ip_address := none, user_agent := none, created_at := 20,
           license_id := some 1, device_id := none,
           admin_user_id := none }] :=
  revoke_already_revoked revokedStore 20 1 9
    revokedRowOld (by decide) (by decide)

/-! ### C7: license creation and negative durations -/

/-- The empty store. -/
def emptyStore : Store :=
  { licenses := [], devices := [], audit_logs := [],
    next_license_id := 1, next_device_id := 1, next_audit_id := 1 }

/-- The row inserted by `create_license` when the key is fresh: status
`active`, expiration `now + duration_days` days, creator `uid`. -/
def newLicenseRow (st : Store) (now : Int) (key : String) (dur : Int)
    (uid : Nat) : License :=
  { id := st.next_license_id, key := key, status := "active",
    expires_at := some (now + dur * secondsPerDay), created_at := now,
    revoked_at := none, created_by := some uid, revoked_by := none }

/-- The license row produced by creating `KEY-N` with duration -3 at time 0
by admin 42 on the empty store. -/
def negDurationRow : License := newLicenseRow emptyStore 0 "KEY-N" (-3) 42

/-- C7, counterexample: the claim says creation with a negative
`duration_days` fails with a validation error and creates no row; but the
code performs no such validation: creating `KEY-N` with `duration_days = -3`
on the empty store succeeds and inserts an active license whose expiration
is three days in the past. -/
theorem create_negative_duration_accepted :
    (create_license emptyStore 0 "KEY-N" (-3) 42).1 =
      .created negDurationRow ∧
    negDurationRow.status = "active" ∧
    negDurationRow.expires_at = some (-259200) ∧
    (create_license emptyStore 0 "KEY-N" (-3) 42).2.licenses.length = 1 := by
  refine ⟨?_, ?_, ?_, ?_⟩ <;> decide

/-- C7, amended: creation with a duplicate key fails with the duplicate-key
error and changes nothing; creation with any fresh non-empty key — for any
`duration_days`, negative included — succeeds and inserts a license with
status `active` and expiration `now + duration_days` days (possibly already
in the past); no validation error exists for negative durations. -/
theorem create_license_behavior (st : Store) (now : Int) (key : String)
    (dur : Int) (uid : Nat) :
    (key ≠ "" → st.licenses.find? (fun l => l.key == key) = none →
      create_license st now key dur uid =
        (.created (newLicenseRow st now key dur uid),
         { st with
             licenses := st.licenses ++ [newLicenseRow st now key dur uid],
             next_license_id := st.next_license_id + 1 })) ∧
    (key ≠ "" → (st.licenses.find? (fun l => l.key == key)).isSome →
      create_license st now key dur uid = (.duplicateKey, st)) := by
  constructor
  · intro hk hn
    unfold create_license newLicenseRow
    rw [if_neg hk]
    simp [hn]
  · intro hk hdup
    unfold create_license
    rw [if_neg hk, if_pos hdup]

/-- C7, witness: the amended behavior evaluated at the negative-duration
creation on the empty store. -/
theorem create_license_behavior_witness :
    create_license emptyStore 0 "KEY-N" (-3) 42 =
      (.created (newLicenseRow emptyStore 0 "KEY-N" (-3) 42),
       { emptyStore with
           licenses := emptyStore.licenses ++
             [newLicenseRow emptyStore 0 "KEY-N" (-3) 42],
           next_license_id := emptyStore.next_license_id + 1 }) :=
  (create_license_behavior emptyStore 0 "KEY-N" (-3) 42).1
    (by decide) (by decide)

/-! ### C9: the audit row's device reference -/

/-- The `Device` row inserted by a first-time activation. -/
def newDeviceRow (st : Store) (now : Int) (d info : String)
    (lid : Nat) : Device :=
  { id := st.next_device_id, device_id := d, device_info := info,
    fcm_token := none, registered_at := now, last_validated := none,
    is_active := true, license_id := lid }

/-- The `AuditLog` row appended by a first-time activation. -/
def newAuditRow (st : Store) (now : Int) (d k : String)
    (lid : Nat) : AuditLog :=
  { id := st.next_audit_id, action := "license_activated",
    details := "Device " ++ d ++ " activated license " ++ k,
    ip_address := none, user_agent := none, created_at := now,
    license_id := some lid, device_id := some d, admin_user_id := none }

/-- C9: a successful first-time activation appends exactly one audit row,
and that row's `device_id` field holds the caller-supplied device identifier
string — not the integer primary key of the newly inserted `Device` row
(which is the autoincrement counter `st.next_device_id`); whenever the
caller string differs from that key's decimal rendering, the audit field
differs from it too. -/
theorem activation_audit_stores_device_string (st : Store)
    (jk k d info : String) (now : Int) (l : License)
    (hf : st.licenses.find? (fun x => x.key == k) = some l)
    (hs : l.status = "active")
    (he : expiredNow l now = false)
    (hd : st.devices.find? (fun x => x.device_id == d) = none) :
    (activate_license st jk now k d info).2.audit_logs =
      st.audit_logs ++ [newAuditRow st now d k l.id] ∧
    (activate_license st jk now k d info).2.devices =
      st.devices ++ [newDeviceRow st now d info l.id] ∧
    (newAuditRow st now d k l.id).device_id = some d ∧
    (newDeviceRow st now d info l.id).id = st.next_device_id ∧
    (d ≠ toString st.next_device_id →
      (newAuditRow st now d k l.id).device_id ≠
        some (toString st.next_device_id)) := by
  have h1 : (activate_license st jk now k d info).2 =
      { st with
          devices := st.devices ++ [newDeviceRow st now d info l.id],
          audit_logs := st.audit_logs ++ [newAuditRow st now d k l.id],
          next_device_id := st.next_device_id + 1,
          next_audit_id := st.next_audit_id + 1 } := by
    unfold activate_license newDeviceRow newAuditRow
    rw [hf]
    simp [hs, he, hd]
  refine ⟨by rw [h1], by rw [h1], rfl, rfl, ?_⟩
  intro hne hcontra
  exact hne (Option.some.inj hcontra)

/-- C9, witness: on `freshStore` the created device row has primary key 1
while the audit row's `device_id` field stores the string "dev1". -/
theorem activation_audit_stores_device_string_witness :
    (activate_license freshStore "s" 10 "KEY-A" "dev1" "x").2.audit_logs =
      freshStore.audit_logs ++ [newAuditRow freshStore 10 "dev1" "KEY-A" 1] ∧
    (activate_license freshStore "s" 10 "KEY-A" "dev1" "x").2.devices =
      freshStore.devices ++ [newDeviceRow freshStore 10 "dev1" "x" 1] ∧
    (newAuditRow freshStore 10 "dev1" "KEY-A" 1).device_id = some "dev1" ∧
    (newDeviceRow freshStore 10 "dev1" "x" 1).id = 1 ∧
    ("dev1" ≠ toString freshStore.next_device_id →
      (newAuditRow freshStore 10 "dev1" "KEY-A" 1).device_id ≠
        some (toString freshStore.next_device_id)) :=
  activation_audit_stores_device_string freshStore "s" "KEY-A" "dev1" "x" 10
    (mkLicense 1 "KEY-A" "active" none)
    (by decide) (by decide) (by decide) (by decide)

/-! ### C10: successful validation -/

/-- C10: a successful validate call returns `days_remaining` computed by
floor division of the remaining time by one day — non-negative whenever the
license has an expiration (the lazy-expiry check precedes it), and `none`
when it has none — and the only persisted change is the device's
`last_validated` timestamp: licenses and audit rows are untouched and every
device row is either unchanged or updated only in `last_validated`. -/
theorem validate_success_days (st : Store) (jk u : String)
    (now exp0 : Int) (lid2 : Nat) (dv : Device) (l : License)
    (hx : now < exp0)
    (hdv : st.devices.find? (fun x => x.device_id == u) = some dv)
    (hl : st.licenses.find? (fun x => x.id == dv.license_id) = some l)
    (hs : l.status = "active") (he : expiredNow l now = false) :
    validate_license st jk now (some (.signed u lid2 exp0 jk)) =
      (.valid l.status l.expires_at
         (l.expires_at.map (fun e => daysBetween e now)),
       { st with devices := touchDevice st.devices dv.id now }) ∧
    (∀ e, l.expires_at = some e →
      l.expires_at.map (fun e2 => daysBetween e2 now) =
        some (daysBetween e now) ∧ 0 ≤ daysBetween e now) ∧
    (l.expires_at = none →
      l.expires_at.map (fun e => daysBetween e now) = none) ∧
    ({ st with devices := touchDevice st.devices dv.id now }.licenses =
      st.licenses) ∧
    ({ st with devices := touchDevice st.devices dv.id now }.audit_logs =
      st.audit_logs) ∧
    (∀ (i : Nat) (x : Device), st.devices[i]? = some x →
      (touchDevice st.devices dv.id now)[i]? = some x ∨
      (touchDevice st.devices dv.id now)[i]? =
        some { x with last_validated := some now }) := by
  have hne : ¬ (exp0 ≤ now) := not_le.mpr hx
  refine ⟨?_, ?_, ?_, rfl, rfl, ?_⟩
  · unfold validate_license jwt_required_check jwt_decode
    simp only [ne_eq, not_true_eq_false, if_false, if_neg hne, hdv, hl]
    simp [hs, he]
  · intro e heq
    refine ⟨by rw [heq]; rfl, ?_⟩
    unfold daysBetween
    apply Int.fdiv_nonneg
    · unfold expiredNow at he
      rw [heq] at he
      simp only [decide_eq_false_iff_not, not_lt] at he
      omega
    · decide
  · intro heq
    rw [heq]
    rfl
  · intro i x hx2
    unfold touchDevice
    rw [List.getElem?_map, hx2]
    simp only [Option.map_some']
    by_cases hid : x.id = dv.id
    · right; rw [if_pos hid]
    · left; rw [if_neg hid]

/-- A store with one active license expiring at 200000 and `dev1` bound to
it, for exercising successful validation. -/
def validStore : Store :=
  { licenses := [mkLicense 1 "KEY-A" "active" (some 200000)],
    devices := [boundDevice], audit_logs := [],
    next_license_id := 2, next_device_id := 2, next_audit_id := 1 }

/-- C10, witness: validating `dev1` on `validStore` at time 100 returns two
remaining days and only touches `last_validated`. -/
theorem validate_success_days_witness :
    validate_license validStore "s" 100 (some (.signed "dev1" 1 500 "s")) =
      (.valid "active" (some 200000) (some (daysBetween 200000 100)),
       { validStore with
           devices := touchDevice validStore.devices 1 100 }) ∧
    0 ≤ daysBetween 200000 100 := by
  have h := validate_success_days validStore "s" "dev1" 100 500 1
    boundDevice (mkLicense 1 "KEY-A" "active" (some 200000))
    (by decide) (by decide) (by decide) (by decide) (by decide)
  exact ⟨h.1, (h.2.1 200000 rfl).2⟩

/-! ### Invariants preserved by every API call -/

/-- The license found by key `k` exists and is not active. -/
def keyNotActiveInv (k : String) (st : Store) : Prop :=
  ∃ l, st.licenses.find? (fun x => x.key == k) = some l ∧
    l.status ≠ "active"

/-- The license found by primary key `lid` exists and is not active. -/
def idNotActiveInv (lid : Nat) (st : Store) : Prop :=
  ∃ l, st.licenses.find? (fun x => x.id == lid) = some l ∧
    l.status ≠ "active"

/-- Well-formed primary keys, and the license found by primary key `lid`
exists and is revoked. -/
def idRevokedInv (lid : Nat) (st : Store) : Prop :=
  Store.LicenseWF st ∧
  ∃ l, st.licenses.find? (fun x => x.id == lid) = some l ∧
    l.status = "revoked"

theorem keyNotActiveInv_step {k : String} {st st' : Store} (h : Step st st')
    (hP : keyNotActiveInv k st) : keyNotActiveInv k st' := by
  obtain ⟨l, hf, hs⟩ := hP
  cases h with
  | act jk now k2 d info =>
    rcases activate_licenses_cases st jk now k2 d info with hL |
      ⟨l0, hf0, hs0, hL⟩
    · exact ⟨l, by rw [hL]; exact hf, hs⟩
    · refine ⟨if l.id = l0.id then { l with status := "expired" } else l,
        ?_, ?_⟩
      · rw [hL, expireLicense_find?_key, hf]
        rfl
      · by_cases hid : l.id = l0.id
        · rw [if_pos hid]
          show ("expired" : String) ≠ "active"
          decide
        · rw [if_neg hid]
          exact hs
  | val jk now hdr =>
    rcases validate_licenses_cases st jk now hdr with hL |
      ⟨l0, lid0, hf0, hs0, hL⟩
    · exact ⟨l, by rw [hL]; exact hf, hs⟩
    · refine ⟨if l.id = l0.id then { l with status := "expired" } else l,
        ?_, ?_⟩
      · rw [hL, expireLicense_find?_key, hf]
        rfl
      · by_cases hid : l.id = l0.id
        · rw [if_pos hid]
          show ("expired" : String) ≠ "active"
          decide
        · rw [if_neg hid]
          exact hs
  | cre now k2 dur uid =>
    rcases create_store_cases st now k2 dur uid with hE | ⟨l0, hid0, hE⟩
    · exact ⟨l, by rw [hE]; exact hf, hs⟩
    · refine ⟨l, ?_, hs⟩
      rw [hE]
      exact find?_append_some _ hf
  | rev now lid uid =>
    rcases revoke_licenses_cases st now lid uid with hL | hL
    · exact ⟨l, by rw [hL]; exact hf, hs⟩
    · refine ⟨if l.id = lid then
        { l with status := "revoked", revoked_at := some now,
                 revoked_by := some uid } else l, ?_, ?_⟩
      · rw [hL, revokeUpdate_find?_key, hf]
        rfl
      · by_cases hid : l.id = lid
        · rw [if_pos hid]
          show ("revoked" : String) ≠ "active"
          decide
        · rw [if_neg hid]
          exact hs

theorem keyNotActiveInv_steps {k : String} {st st' : Store}
    (h : Steps st st') (hP : keyNotActiveInv k st) :
    keyNotActiveInv k st' := by
  induction h with
  | refl => exact hP
  | tail hs2 hstep ih => exact keyNotActiveInv_step hstep ih

theorem idNotActiveInv_step {lid : Nat} {st st' : Store} (h : Step st st')
    (hP : idNotActiveInv lid st) : idNotActiveInv lid st' := by
  obtain ⟨l, hf, hs⟩ := hP
  cases h with
  | act jk now k2 d info =>
    rcases activate_licenses_cases st jk now k2 d info with hL |
      ⟨l0, hf0, hs0, hL⟩
    · exact ⟨l, by rw [hL]; exact hf, hs⟩
    · refine ⟨if l.id = l0.id then { l with status := "expired" } else l,
        ?_, ?_⟩
      · rw [hL, expireLicense_find?_id, hf]
        rfl
      · by_cases hid : l.id = l0.id
        · rw [if_pos hid]
          show ("expired" : String) ≠ "active"
          decide
        · rw [if_neg hid]
          exact hs
  | val jk now hdr =>
    rcases validate_licenses_cases st jk now hdr with hL |
      ⟨l0, lid0, hf0, hs0, hL⟩
    · exact ⟨l, by rw [hL]; exact hf, hs⟩
    · refine ⟨if l.id = l0.id then { l with status := "expired" } else l,
        ?_, ?_⟩
      · rw [hL, expireLicense_find?_id, hf]
        rfl
      · by_cases hid : l.id = l0.id
        · rw [if_pos hid]
          show ("expired" : String) ≠ "active"
          decide
        · rw [if_neg hid]
          exact hs
  | cre now k2 dur uid =>
    rcases create_store_cases st now k2 dur uid with hE | ⟨l0, hid0, hE⟩
    · exact ⟨l, by rw [hE]; exact hf, hs⟩
    · refine ⟨l, ?_, hs⟩
      rw [hE]
      exact find?_append_some _ hf
  | rev now lid2 uid =>
    rcases revoke_licenses_cases st now lid2 uid with hL | hL
    · exact ⟨l, by rw [hL]; exact hf, hs⟩
    · refine ⟨if l.id = lid2 then
        { l with status := "revoked", revoked_at := some now,
                 revoked_by := some uid } else l, ?_, ?_⟩
      · rw [hL, revokeUpdate_find?_id, hf]
        rfl
      · by_cases hid : l.id = lid2
        · rw [if_pos hid]
          show ("revoked" : String) ≠ "active"
          decide
        · rw [if_neg hid]
          exact hs

theorem idNotActiveInv_steps {lid : Nat} {st st' : Store}
    (h : Steps st st') (hP : idNotActiveInv lid st) :
    idNotActiveInv lid st' := by
  induction h with
  | refl => exact hP
  | tail hs2 hstep ih => exact idNotActiveInv_step hstep ih

theorem idRevokedInv_step {lid : Nat} {st st' : Store} (h : Step st st')
    (hP : idRevokedInv lid st) : idRevokedInv lid st' := by
  obtain ⟨hwf, l, hf, hs⟩ := hP
  refine ⟨licenseWF_step h hwf, ?_⟩
  cases h with
  | act jk now k2 d info =>
    rcases activate_licenses_cases st jk now k2 d info with hL |
      ⟨l0, hf0, hs0, hL⟩
    · exact ⟨l, by rw [hL]; exact hf, hs⟩
    · have hne : ¬ l.id = l0.id := by
        intro hcon
        have hm1 : l ∈ st.licenses := List.mem_of_find?_eq_some hf
        have hm0 : l0 ∈ st.licenses := List.mem_of_find?_eq_some hf0
        have heq : l = l0 := List.inj_on_of_nodup_map hwf.1 hm1 hm0 hcon
        rw [heq, hs0] at hs
        exact absurd hs (by decide)
      refine ⟨l, ?_, hs⟩
      rw [hL, expireLicense_find?_id, hf]
      simp only [Option.map_some']
      rw [if_neg hne]
  | val jk now hdr =>
    rcases validate_licenses_cases st jk now hdr with hL |
      ⟨l0, lid0, hf0, hs0, hL⟩
    · exact ⟨l, by rw [hL]; exact hf, hs⟩
    · have hne : ¬ l.id = l0.id := by
        intro hcon
        have hm1 : l ∈ st.licenses := List.mem_of_find?_eq_some hf
        have hm0 : l0 ∈ st.licenses := List.mem_of_find?_eq_some hf0
        have heq : l = l0 := List.inj_on_of_nodup_map hwf.1 hm1 hm0 hcon
        rw [heq, hs0] at hs
        exact absurd hs (by decide)
      refine ⟨l, ?_, hs⟩
      rw [hL, expireLicense_find?_id, hf]
      simp only [Option.map_some']
      rw [if_neg hne]
  | cre now k2 dur uid =>
    rcases create_store_cases st now k2 dur uid with hE | ⟨l0, hid0, hE⟩
    · exact ⟨l, by rw [hE]; exact hf, hs⟩
    · refine ⟨l, ?_, hs⟩
      rw [hE]
      exact find?_append_some _ hf
  | rev now lid2 uid =>
    rcases revoke_licenses_cases st now lid2 uid with hL | hL
    · exact ⟨l, by rw [hL]; exact hf, hs⟩
    · refine ⟨if l.id = lid2 then
        { l with status := "revoked", revoked_at := some now,
                 revoked_by := some uid } else l, ?_, ?_⟩
      · rw [hL, revokeUpdate_find?_id, hf]
        rfl
      · by_cases hid : l.id = lid2
        · rw [if_pos hid]
        · rw [if_neg hid]
          exact hs

theorem idRevokedInv_steps {lid : Nat} {st st' : Store}
    (h : Steps st st') (hP : idRevokedInv lid st) :
    idRevokedInv lid st' := by
  induction h with
  | refl => exact hP
  | tail hs2 hstep ih => exact idRevokedInv_step hstep ih

/-! ### C3: lazy expiry is persisted and final -/

/-- C3: whichever of `activate_license` or `validate_license` is the first
call to check an active license whose `expires_at` lies in the past reports
the expiry error and persists the status change to `expired`, changing
nothing else — a first activate call on the key and a first validate call
for a device bound to the license both produce exactly the store with that
one status rewrite; and afterwards — across any further sequence of API
calls — the license found by that key is never active again, every activate
call on the key fails with the not-active error without changing the store,
and every validate call for a device bound to the license fails with the
not-active error carrying a non-active status, without changing the store. -/
theorem lazy_expiry_persists (st : Store) (jk k d info : String)
    (now e : Int) (l : License)
    (hf : st.licenses.find? (fun x => x.key == k) = some l)
    (hs : l.status = "active") (he : l.expires_at = some e)
    (hlt : e < now) :
    (activate_license st jk now k d info).1 = .expired ∧
    (activate_license st jk now k d info).2.licenses.find?
        (fun x => x.key == k) = some { l with status := "expired" } ∧
    (activate_license st jk now k d info).2.devices = st.devices ∧
    (activate_license st jk now k d info).2.audit_logs = st.audit_logs ∧
    (∀ u jk2 lid2 exp2 dv now2, e < now2 → now2 < exp2 →
      st.devices.find? (fun x => x.device_id == u) = some dv →
      st.licenses.find? (fun x => x.id == dv.license_id) = some l →
      validate_license st jk2 now2 (some (.signed u lid2 exp2 jk2)) =
        (.expired, (activate_license st jk now k d info).2)) ∧
    (∀ st2, Steps (activate_license st jk now k d info).2 st2 →
      (∃ l2, st2.licenses.find? (fun x => x.key == k) = some l2 ∧
        l2.status ≠ "active") ∧
      (∀ jk2 now2 d2 info2,
        activate_license st2 jk2 now2 k d2 info2 = (.notActive, st2)) ∧
      (∀ u jk2 now2 exp2 lid2 dv, now2 < exp2 →
        st2.devices.find? (fun x => x.device_id == u) = some dv →
        dv.license_id = l.id →
        ∃ s2, s2 ≠ "active" ∧
          validate_license st2 jk2 now2 (some (.signed u lid2 exp2 jk2)) =
            (.notActive s2, st2))) := by
  have hex : expiredNow l now = true := by
    unfold expiredNow
    rw [he]
    simp [hlt]
  have h1 : activate_license st jk now k d info =
      (.expired, { st with licenses := expireLicense st.licenses l.id }) := by
    unfold activate_license
    rw [hf]
    simp [hs, hex]
  have hfind2 : (activate_license st jk now k d info).2.licenses.find?
      (fun x => x.key == k) = some { l with status := "expired" } := by
    rw [h1]
    simp only
    rw [expireLicense_find?_key, hf]
    simp
  refine ⟨by rw [h1], hfind2, by rw [h1], by rw [h1], ?_, ?_⟩
  · intro u jk2 lid2 exp2 dv now2 hlt2 hlt3 hdv hlid
    have hex2 : expiredNow l now2 = true := by
      unfold expiredNow
      rw [he]
      simp [hlt2]
    have hne : ¬ (exp2 ≤ now2) := not_le.mpr hlt3
    rw [h1]
    unfold validate_license jwt_required_check jwt_decode
    simp only [ne_eq, not_true_eq_false, if_false, if_neg hne, hdv, hlid]
    simp [hs, hex2]
  intro st2 hsteps
  have hP1 : keyNotActiveInv k (activate_license st jk now k d info).2 :=
    ⟨{ l with status := "expired" }, hfind2, by
      show ("expired" : String) ≠ "active"
      decide⟩
  have hQ1 : idNotActiveInv l.id (activate_license st jk now k d info).2 := by
    have hsome : (st.licenses.find? (fun x => x.id == l.id)).isSome := by
      rw [List.find?_isSome]
      exact ⟨l, List.mem_of_find?_eq_some hf, by simp⟩
    obtain ⟨l1, hl1⟩ := Option.isSome_iff_exists.mp hsome
    have hl1id : l1.id = l.id := by
      have h2 := List.find?_some hl1
      simp only [beq_iff_eq] at h2
      exact h2
    refine ⟨{ l1 with status := "expired" }, ?_, by
      show ("expired" : String) ≠ "active"
      decide⟩
    rw [h1]
    simp only
    rw [expireLicense_find?_id, hl1]
    simp [hl1id]
  have hP2 := keyNotActiveInv_steps hsteps hP1
  have hQ2 := idNotActiveInv_steps hsteps hQ1
  refine ⟨hP2, ?_, ?_⟩
  · intro jk2 now2 d2 info2
    obtain ⟨l2, hf2, hs2⟩ := hP2
    unfold activate_license
    simp only [hf2]
    rw [if_pos hs2]
  · intro u jk2 now2 exp2 lid2 dv hlt2 hdv hbind
    obtain ⟨l2, hf2, hs2⟩ := hQ2
    refine ⟨l2.status, hs2, ?_⟩
    have hne2 : ¬ (exp2 ≤ now2) := not_le.mpr hlt2
    unfold validate_license jwt_required_check jwt_decode
    simp only [ne_eq, not_true_eq_false, if_false, if_neg hne2, hdv,
      hbind, hf2]
    rw [if_pos hs2]

/-- A store with one active license `KEY-E` whose expiration, 50, already
passed, and with `dev1` bound to it. -/
def expiringBoundStore : Store :=
  { licenses := [mkLicense 1 "KEY-E" "active" (some 50)],
    devices := [boundDevice], audit_logs := [],
    next_license_id := 2, next_device_id := 2, next_audit_id := 1 }

/-- C3, witness: activating `KEY-E` at time 100 reports expiry and persists
the `expired` status; a first validate call for the bound device `dev1` at
time 100 reports expiry and persists the very same store; and an
immediately following activate call fails with the not-active error without
changing the store. -/
theorem lazy_expiry_persists_witness :
    (activate_license expiringBoundStore "s" 100 "KEY-E" "dev9" "x").1 =
      .expired ∧
    (activate_license expiringBoundStore "s" 100 "KEY-E" "dev9"
        "x").2.licenses.find? (fun x => x.key == "KEY-E") =
      some { mkLicense 1 "KEY-E" "active" (some 50) with
             status := "expired" } ∧
    validate_license expiringBoundStore "s" 100
        (some (.signed "dev1" 1 999 "s")) =
      (.expired,
       (activate_license expiringBoundStore "s" 100 "KEY-E" "dev9" "x").2) ∧
    activate_license
        (activate_license expiringBoundStore "s" 100 "KEY-E" "dev9" "x").2
        "s" 200 "KEY-E" "dev9" "x" =
      (.notActive,
       (activate_license expiringBoundStore "s" 100 "KEY-E" "dev9" "x").2) := by
  have h := lazy_expiry_persists expiringBoundStore "s" "KEY-E" "dev9" "x"
    100 50 (mkLicense 1 "KEY-E" "active" (some 50))
    (by decide) (by decide) (by decide) (by decide)
  exact ⟨h.1, h.2.1,
    h.2.2.2.2.1 "dev1" "s" 1 999 boundDevice 100
      (by decide) (by decide) (by decide) (by decide),
    ((h.2.2.2.2.2 _ (Steps.refl _)).2.1 "s" 200 "dev9" "x")⟩

/-! ### C8: validation after revocation -/

/-- C8: after a license is revoked, every subsequent validate call — across
any further sequence of API calls — for a device bound to that license
fails with the not-active error carrying status `revoked` and leaves the
store (in particular the device row) completely unchanged. -/
theorem revoked_license_validate (st : Store) (now0 : Int) (lid uid : Nat)
    (l : License) (hwf : Store.LicenseWF st)
    (hf : st.licenses.find? (fun x => x.id == lid) = some l) :
    ∀ st2, Steps (revoke_license st now0 lid uid).2 st2 →
      ∀ u jk2 now2 exp2 lid2 dv, now2 < exp2 →
        st2.devices.find? (fun x => x.device_id == u) = some dv →
        dv.license_id = lid →
        validate_license st2 jk2 now2 (some (.signed u lid2 exp2 jk2)) =
          (.notActive "revoked", st2) := by
  have hlid : l.id = lid := by
    have h2 := List.find?_some hf
    simp only [beq_iff_eq] at h2
    exact h2
  have hR1 : idRevokedInv lid (revoke_license st now0 lid uid).2 := by
    refine ⟨licenseWF_step (Step.rev st now0 lid uid) hwf, ?_⟩
    have hL : (revoke_license st now0 lid uid).2.licenses =
        revokeUpdate st.licenses lid now0 uid := by
      unfold revoke_license
      rw [hf]
    rw [hL, revokeUpdate_find?_id, hf]
    simp only [Option.map_some']
    rw [if_pos hlid]
    exact ⟨_, rfl, rfl⟩
  intro st2 hsteps u jk2 now2 exp2 lid2 dv hlt hdv hbind
  obtain ⟨hwf2, l2, hf2, hs2⟩ := idRevokedInv_steps hsteps hR1
  have hne2 : ¬ (exp2 ≤ now2) := not_le.mpr hlt
  have hna : l2.status ≠ "active" := by
    rw [hs2]
    decide
  unfold validate_license jwt_required_check jwt_decode
  simp only [ne_eq, not_true_eq_false, if_false, if_neg hne2, hdv,
    hbind, hf2]
  rw [if_pos hna, hs2]

/-- C8, witness: revoke `KEY-A` in `twoLicenseStore` at time 50, then
validate the bound device `dev1` at time 60: the call fails with status
`revoked` and the store is unchanged. -/
theorem revoked_license_validate_witness :
    validate_license (revoke_license twoLicenseStore 50 1 7).2 "s" 60
        (some (.signed "dev1" 1 999 "s")) =
      (.notActive "revoked", (revoke_license twoLicenseStore 50 1 7).2) :=
  revoked_license_validate twoLicenseStore 50 1 7
    (mkLicense 1 "KEY-A" "active" none)
    (by unfold Store.LicenseWF; decide) (by decide)
    (revoke_license twoLicenseStore 50 1 7).2 (Steps.refl _)
    "dev1" "s" 60 999 1 boundDevice (by decide) (by decide) (by decide)
